import Mathlib

/-!
Verification of the valuation regression and comparison engine
(`backend/app/services/regression_models.py`).

The Python module is embedded shallowly: JSON-ish rows become Lean
structures with optional fields, Python floats/ints become `ℚ`/`ℤ`
(exact arithmetic; IEEE rounding is not modelled), `None`-returning
functions become `Option`-valued functions, and a caught exception that
the source maps to `None` is modelled as the corresponding `none`
result.  The sklearn numeric kernels (the seeded random split, the
StandardScaler statistics, the linear/ridge/random-forest solvers and
the metric/cross-validation scores) are not reproduced in rational
arithmetic; they enter as an explicit `SkEngine` parameter, while all
control flow, feature assembly, normalization, storage of trained
state, prediction, and comparison logic of the source is embedded
exactly.
-/

set_option autoImplicit false

namespace PropertyRegression

/-- A single-quote character, used by the Python `str()` rendering
of a list of strings. -/
def squote : String := String.singleton (Char.ofNat 39)

/-- Tests whether `pat` is a prefix of the second list. -/
def prefixChars : List Char → List Char → Bool
  | [], _ => true
  | _ :: _, [] => false
  | a :: as, b :: bs => a = b && prefixChars as bs

/-- Tests whether `pat` occurs as a contiguous run in the second list. -/
def containsChars (pat : List Char) : List Char → Bool
  | [] => pat.isEmpty
  | b :: bs => prefixChars pat (b :: bs) || containsChars pat bs

/-- Python substring membership: `needle in hay`. -/
def pyIn (needle hay : String) : Bool := containsChars needle.data hay.data

/-- Python `s.lower()` (ASCII case folding suffices for the tokens used). -/
def pyLower (s : String) : String := String.mk (s.data.map Char.toLower)

/-- Python `str(xs)` for a list of strings: bracketed, comma-separated,
each element wrapped in single quotes.  (Feature
strings in the data contain no quotes or escapes, so `repr` is plain
quoting.) -/
def pyReprStrList : List String → String
  | [] => "[]"
  | xs => "[" ++ String.intercalate ", " (xs.map (fun s => squote ++ s ++ squote)) ++ "]"

/-- Value of a loosely-typed JSON field that the source reads as either a
number or a string. -/
inductive PyVal where
  | num (q : ℚ)
  | str (s : String)
  deriving DecidableEq

/-- Python truthiness of such a value (`bool(v)`): a number is truthy iff
nonzero, a string iff nonempty. -/
def pyTruthy : PyVal → Bool
  | .num q => q ≠ 0
  | .str s => s ≠ ""

/-- Python `int(q)` on a number: truncation toward zero. -/
def pyIntTrunc (q : ℚ) : ℤ := if 0 ≤ q then Rat.floor q else Rat.ceil q

/-- Numeric value of a list of decimal digit characters (empty ↦ 0). -/
def digitsVal (cs : List Char) : ℚ :=
  cs.foldl (fun n c => 10 * n + ((c.toNat : ℚ) - 48)) 0

/-- The `_to_int` helper of `_parse_property_row`: `None ↦ 0`, numbers truncate,
strings are stripped to their digit characters (`re.sub` deleting every
non-digit)
and read as a (nonnegative) integer, empty ↦ 0. -/
def toIntCoerce : Option PyVal → ℤ
  | none => 0
  | some (.num q) => pyIntTrunc q
  | some (.str s) =>
      let ds := s.data.filter Char.isDigit
      if ds = [] then 0 else pyIntTrunc (digitsVal ds)

/-- The currency strip (`re.sub`): keep digits, dots and minus signs. -/
def stripPriceChars (s : String) : String :=
  String.mk (s.data.filter (fun c => c.isDigit || c = Char.ofNat 46 || c = Char.ofNat 45))

/-- Python `float(s)` on a stripped numeric string: optional leading
minus, decimal digits with at most one dot, at least one digit; anything
else raises `ValueError` (↦ `none`). -/
def pyFloat (s : String) : Option ℚ :=
  match s.data with
  | [] => none
  | c :: t =>
    let (sign, rest) : ℚ × List Char :=
      if c = Char.ofNat 45 then (-1, t) else (1, c :: t)
    if rest.isEmpty then none
    else if rest.any (fun d => !d.isDigit && d ≠ Char.ofNat 46) then none
    else
      match rest.splitOn (Char.ofNat 46) with
      | [ip] => if ip.isEmpty then none else some (sign * digitsVal ip)
      | [ip, fp] =>
          if ip.isEmpty && fp.isEmpty then none
          else some (sign * (digitsVal ip + digitsVal fp / 10 ^ fp.length))
      | _ => none

/-- Python `max(a, b)`: the larger argument, the first on ties. -/
def pyMax (a b : ℚ) : ℚ := if a < b then b else a

/-- Absolute value (`np.abs`) of one value. -/
def npAbs (q : ℚ) : ℚ := if q < 0 then -q else q

/-- Median (`np.median`) of a nonempty list: sort, take the middle element, or the
mean of the two middle elements for even length. -/
def npMedian (l : List ℚ) : ℚ :=
  let s := List.insertionSort (· ≤ ·) l
  let n := s.length
  if n % 2 = 1 then s.getD (n / 2) 0
  else (s.getD (n / 2 - 1) 0 + s.getD (n / 2) 0) / 2

/-! ## Raw row model (duck-typed JSON rows consumed by the normalizer) -/

/-- One entry of the `extracted_data` rooms list (all entries are dicts
in the consumed data, so the `isinstance(r, dict)` filter of the source
is the identity).  An absent `features` key defaults to the empty
list. -/
structure ExRoom where
  roomType : Option String := none
  features : List String := []
  deriving DecidableEq

/-- One entry of the floor-plan-measurement `rooms` list (its `sqft` key). -/
structure MeasRoom where
  sqft : Option ℚ := none
  deriving DecidableEq

/-- The `totals` map of `detected_features`, with per-key default 0. -/
structure FeatureTotals where
  doors : ℤ := 0
  windows : ℤ := 0
  closets : ℤ := 0
  deriving DecidableEq

/-- One comparable-sale record. -/
structure CompSale where
  sale_price : Option PyVal := none
  last_sale_price : Option PyVal := none
  price : Option PyVal := none
  deriving DecidableEq

/-- The `price_estimate` map of `market_insights`. -/
structure PriceEstimate where
  estimated_value : Option PyVal := none
  deriving DecidableEq

/-- The `market_insights` map of `extracted_data`. -/
structure MarketInsights where
  comparable_properties : List CompSale := []
  price_estimate : Option PriceEstimate := none
  deriving DecidableEq

/-- The `extracted_data` map of a property row. -/
structure ExtractedData where
  bedrooms : ℤ := 0
  bathrooms : ℚ := 0
  total_square_feet : Option PyVal := none
  square_footage : Option PyVal := none
  square_feet : Option PyVal := none
  rooms : List ExRoom := []
  market_insights : Option MarketInsights := none
  deriving DecidableEq

/-- The empty dict that the `extracted_data` lookup falls back to. -/
def emptyExtractedData : ExtractedData := {}

/-- The empty dict that the `totals` lookup falls back to. -/
def emptyTotals : FeatureTotals := {}

/-- One database row as consumed by `_parse_property_row`.  `property_id`
is optional because the `property_id` subscript raises `KeyError` when
absent (caught by the enclosing `except`, yielding `None`). -/
structure PropertyRow where
  property_id : Option String := none
  extracted_data : Option ExtractedData := none
  total_square_feet : Option PyVal := none
  quality_score : ℤ := 0
  total_square_feet_confidence : Option ℚ := none
  rooms : List MeasRoom := []
  detected_features : Option FeatureTotals := none
  comparables : List CompSale := []
  deriving DecidableEq

/-! ## Normalized feature record (`PropertyFeatures` dataclass) -/

/-- Flattened per-property feature vector, mirroring the `PropertyFeatures`
dataclass (amenity flags are 0/1 integers as in the source). -/
structure PropertyFeatures where
  property_id : String
  bedrooms : ℤ
  bathrooms : ℚ
  total_sqft : ℚ
  room_count : ℤ := 0
  avg_room_sqft : ℚ := 0
  largest_room_sqft : ℚ := 0
  smallest_room_sqft : ℚ := 0
  has_garage : ℤ := 0
  has_fireplace : ℤ := 0
  has_balcony : ℤ := 0
  has_closets : ℤ := 0
  num_doors : ℤ := 0
  num_windows : ℤ := 0
  zip_code : Option String := none
  neighborhood : Option String := none
  sale_price : Option ℚ := none
  estimated_value : Option ℚ := none
  quality_score : ℤ := 0
  confidence : ℚ := 0
  deriving DecidableEq

/-! ## Feature normalizer (`_parse_property_row`) -/

/-- The `total_sqft` resolution of `_parse_property_row`: the row-level
measurement if truthy, else `_to_int` over the `extracted_data` keys
`total_square_feet`, `square_footage`, `square_feet` in order (each tried
only while the running value is still falsy, i.e. 0). -/
def resolveTotalSqft (row : PropertyRow) : PyVal :=
  let ed := row.extracted_data.getD emptyExtractedData
  let fallback : PyVal :=
    let t1 := toIntCoerce ed.total_square_feet
    if t1 ≠ 0 then .num t1
    else
      let t2 := toIntCoerce ed.square_footage
      if t2 ≠ 0 then .num t2 else .num (toIntCoerce ed.square_feet)
  match row.total_square_feet with
  | some v => if pyTruthy v then v else fallback
  | none => fallback

/-- Garage detection: `any` over the room list of a substring test of
the token "garage" against the lower-cased `str()` of the room `type`
field — the `type` field only. -/
def garageFlag (row : PropertyRow) : Bool :=
  ((row.extracted_data.getD emptyExtractedData).rooms).any
    (fun r => pyIn "garage" (pyLower (r.roomType.getD "")))

/-- Fireplace detection: `any` over the room list of a substring test
of the token "fireplace" against the `str()` rendering of the
`features` list — features only, and case-sensitive (no `.lower()` in
the source). -/
def fireplaceFlag (row : PropertyRow) : Bool :=
  ((row.extracted_data.getD emptyExtractedData).rooms).any
    (fun r => pyIn "fireplace" (pyReprStrList r.features))

/-- Balcony detection: like the fireplace flag, case-sensitive and over
`features` only. -/
def balconyFlag (row : PropertyRow) : Bool :=
  ((row.extracted_data.getD emptyExtractedData).rooms).any
    (fun r => pyIn "balcony" (pyReprStrList r.features))

/-- Price coercion applied to each comparable (`sale_price` →
`last_sale_price` → `price`, currency strings stripped and `float()`ed,
only positive results kept; a `ValueError` skips the record). -/
def compPrice (c : CompSale) : Option ℚ :=
  let val := (c.sale_price.orElse fun _ => (c.last_sale_price.orElse fun _ => c.price))
  match val with
  | none => none
  | some (.num q) => if 0 < q then some q else none
  | some (.str s) =>
      let s2 := stripPriceChars s
      if s2 = "" then none
      else
        match pyFloat s2 with
        | some q => if 0 < q then some q else none
        | none => none

/-- The comparables list actually used: the row-level `comparables`
value, falling back to
`extracted_data.market_insights.comparable_properties`. -/
def effectiveComparables (row : PropertyRow) : List CompSale :=
  if row.comparables ≠ [] then row.comparables
  else
    match (row.extracted_data.getD emptyExtractedData).market_insights with
    | some mi => mi.comparable_properties
    | none => []

/-- Last-resort price: `extracted_data.market_insights.price_estimate
.estimated_value`, string-coerced, kept only if positive. -/
def estimatedValuePrice (row : PropertyRow) : Option ℚ :=
  match (row.extracted_data.getD emptyExtractedData).market_insights with
  | none => none
  | some mi =>
    match mi.price_estimate with
    | none => none
    | some pe =>
      match pe.estimated_value with
      | none => none
      | some (.num q) => if 0 < q then some q else none
      | some (.str s) =>
          let s2 := stripPriceChars s
          if s2 = "" then none
          else
            match pyFloat s2 with
            | some q => if 0 < q then some q else none
            | none => none

/-- Sale-price resolution: median of the coerced comparable prices if any,
else the positive estimated value, else `none`. -/
def resolveSalePrice (row : PropertyRow) : Option ℚ :=
  let comparables := effectiveComparables row
  let fromComps : Option ℚ :=
    if comparables ≠ [] then
      let comp_prices := comparables.filterMap compPrice
      if comp_prices ≠ [] then some (npMedian comp_prices) else none
    else none
  match fromComps with
  | some p => some p
  | none => estimatedValuePrice row

/-- Construction of the `PropertyFeatures` record once `total_sqft` has
resolved to the positive number `q` and `property_id` to `pid` (the
source subscripts the row by `property_id` while building the dataclass; absence
raises `KeyError` and is handled in `parse_property_row`). -/
def buildFeatures (row : PropertyRow) (q : ℚ) (pid : String) : PropertyFeatures :=
  let room_sqfts := row.rooms.filterMap
    (fun r => match r.sqft with
      | some v => if v ≠ 0 then some v else none
      | none => none)
  let room_count := room_sqfts.length
  let totals := row.detected_features.getD emptyTotals
  { property_id := pid
    bedrooms := (row.extracted_data.getD emptyExtractedData).bedrooms
    bathrooms := (row.extracted_data.getD emptyExtractedData).bathrooms
    total_sqft := q
    room_count := room_count
    avg_room_sqft := if room_count > 0 then room_sqfts.sum / room_count else 0
    largest_room_sqft := (List.insertionSort (· ≥ ·) room_sqfts).headD 0
    smallest_room_sqft := (List.insertionSort (· ≤ ·) room_sqfts).headD 0
    has_garage := if garageFlag row then 1 else 0
    has_fireplace := if fireplaceFlag row then 1 else 0
    has_balcony := if balconyFlag row then 1 else 0
    has_closets := if totals.closets > 0 then 1 else 0
    num_doors := totals.doors
    num_windows := totals.windows
    sale_price := resolveSalePrice row
    quality_score := row.quality_score
    confidence := row.total_square_feet_confidence.getD 0 }

/-- Embeds `_parse_property_row`: reject the row (`None`) unless the resolved
`total_sqft` is a positive number — a string value fails the `<= 0`
comparison with `TypeError`, caught by the enclosing `except` — and the
row carries a `property_id`. -/
def parse_property_row (row : PropertyRow) : Option PropertyFeatures :=
  match resolveTotalSqft row with
  | .str _ => none
  | .num q =>
    if q ≤ 0 then none
    else
      match row.property_id with
      | none => none
      | some pid => some (buildFeatures row q pid)

/-- Decidable rendering of the claim hypothesis "the resolved
`total_sqft` is absent, zero, or negative" (absence resolves to the
number 0 through the `_to_int` fallbacks). -/
def totalSqftNonpositive (row : PropertyRow) : Bool :=
  match resolveTotalSqft row with
  | .num q => q ≤ 0
  | .str _ => false

/-! ## Trained model state -/

/-- A fitted estimator: linear-family models (`LinearRegression`,
`Ridge`) expose a coefficient vector and an intercept (`coef_` /
`intercept_`); a fitted `RandomForestRegressor` exposes native
importances (`feature_importances_`) and an opaque prediction
function, and has no `coef_`. -/
inductive Estimator where
  | linear (coefs : List ℚ) (intercept : ℚ)
  | forest (importances : List ℚ) (predictFn : List ℚ → ℚ)

/-- Apply a fitted estimator to one (scaled) feature vector
(`model.predict`); linear models compute the dot product plus
intercept. -/
def estApply : Estimator → List ℚ → ℚ
  | .linear coefs b, v => (List.zipWith (· * ·) coefs v).sum + b
  | .forest _ pf, v => pf v

/-- The unnormalized importance vector `_get_feature_importance` starts
from: native importances for a forest, absolute coefficients
(`np.abs(model.coef_)`) for a linear model. -/
def unnormImportances : Estimator → List ℚ
  | .linear coefs _ => coefs.map npAbs
  | .forest imps _ => imps

/-- Mutable service state of `PropertyRegressionModel`: the last trained
model, its type, the feature-name order, and the fitted scaler
statistics (`mean_`, `scale_`; `none` while the scaler is unfitted). -/
structure ModelState where
  trainedModel : Option Estimator
  trainedModelType : Option String
  featureNames : List String
  scalerMean : Option (List ℚ)
  scalerScale : Option (List ℚ)

/-- State after `__init__`: nothing trained, `feature_names = []`,
scaler constructed but unfitted. -/
def initState : ModelState :=
  { trainedModel := none, trainedModelType := none, featureNames := []
    scalerMean := none, scalerScale := none }

/-- The fixed, explicit feature column order of
`_prepare_feature_matrix` (12 columns; `smallest_room_sqft` is not a
model feature). -/
def featureNamesList : List String :=
  ["total_sqft", "bedrooms", "bathrooms", "room_count", "avg_room_sqft",
   "largest_room_sqft", "has_garage", "has_fireplace", "has_balcony",
   "has_closets", "num_doors", "num_windows"]

/-- The 12-entry feature vector in the fixed column order; the same
literal column list appears in `_prepare_feature_matrix` and again in
`predict_price`. -/
def featureVector (f : PropertyFeatures) : List ℚ :=
  [f.total_sqft, (f.bedrooms : ℚ), f.bathrooms, (f.room_count : ℚ),
   f.avg_room_sqft, f.largest_room_sqft, (f.has_garage : ℚ),
   (f.has_fireplace : ℚ), (f.has_balcony : ℚ), (f.has_closets : ℚ),
   (f.num_doors : ℚ), (f.num_windows : ℚ)]

/-- Standardize one row with fitted statistics: `(x - mean_) / scale_`
column-wise (widths always agree in the source, the scaler having been
fitted on matrices of the same fixed column count). -/
def scaleRow (mean scale : List ℚ) (v : List ℚ) : List ℚ :=
  List.zipWith (fun x ms => (x - ms.1) / ms.2) v (mean.zip scale)

/-! ## Predictor -/

/-- Embeds `predict_price`: `None` when no model is trained; otherwise build
the fixed 12-entry vector, transform it with the fitted scaler (an
unfitted scaler would raise inside the `try`, caught to `None`), apply
the estimator and clamp to be non-negative (`max(0, ...)`). -/
def predict_price (st : ModelState) (f : PropertyFeatures) : Option ℚ :=
  match st.trainedModel with
  | none => none
  | some est =>
    match st.scalerMean, st.scalerScale with
    | some mean, some scale =>
        some (pyMax 0 (estApply est (scaleRow mean scale (featureVector f))))
    | _, _ => none

/-- Embeds `calculate_sqft_impact`: `None` unless a model is trained and
`total_sqft` is among the feature names; for a linear-family model,
the `total_sqft` coefficient divided by the fitted standard deviation
of that column (1.0 if the scaler is unfitted; an out-of-range index raises
inside the `try`, caught to `None`); for a forest (no `coef_`),
`None`. -/
def calculate_sqft_impact (st : ModelState) : Option ℚ :=
  match st.trainedModel with
  | none => none
  | some est =>
    if "total_sqft" ∈ st.featureNames then
      let idx := st.featureNames.indexOf "total_sqft"
      match est with
      | .linear coefs _ =>
        match coefs.get? idx with
        | none => none
        | some c =>
          match st.scalerScale with
          | none => some (c / 1)
          | some sc =>
            match sc.get? idx with
            | none => none
            | some s => some (c / s)
      | .forest _ _ => none
    else none

/-! ## Model trainer (`build_room_dimension_model`) -/

/-- Training report (`RegressionResults` dataclass); importance,
prediction and coefficient dicts are association lists keyed by the
(distinct) feature names / property ids. -/
structure RegressionResults where
  model_type : String
  r2_score : ℚ
  mae : ℚ
  rmse : ℚ
  cross_val_scores : List ℚ
  feature_importance : List (String × ℚ)
  predictions : List (String × ℚ)
  coefficients : List (String × ℚ)
  intercept : ℚ

/-- Outcome of a training call: `None`, a report, or an uncaught
`KeyError` escaping `self.models[model_type]`. -/
inductive TrainResult where
  | null
  | ok (r : RegressionResults)
  | keyError (key : String)

/-- Returns `true` exactly on the non-null, non-raising outcome. -/
def TrainResult.isOk : TrainResult → Bool
  | .ok _ => true
  | _ => false

/-- The numeric kernels delegated to sklearn/numpy, which the rational
embedding does not reproduce bit-for-bit: the seed-42 train/test index
split, the StandardScaler statistics (mean and standard deviation per
column), the three solvers, and the metric / cross-validation scores.
Every embedded theorem quantifying over `SkEngine` therefore holds for
whatever values the library computes. -/
structure SkEngine where
  splitIndices : ℕ → List ℕ × List ℕ
  scalerFit : List (List ℚ) → List ℚ × List ℚ
  fitLinear : List (List ℚ) → List ℚ → List ℚ × ℚ
  fitRidge : List (List ℚ) → List ℚ → List ℚ × ℚ
  fitForest : List (List ℚ) → List ℚ → List ℚ × (List ℚ → ℚ)
  r2Score : List ℚ → List ℚ → ℚ
  maeScore : List ℚ → List ℚ → ℚ
  rmseScore : List ℚ → List ℚ → ℚ
  crossValScores : String → List (List ℚ) → List ℚ → ℕ → List ℚ

/-- The records with a known, positive price
(`f.sale_price is not None and f.sale_price > 0`). -/
def pricedRecords (features_list : List PropertyFeatures) : List PropertyFeatures :=
  features_list.filter (fun f =>
    match f.sale_price with
    | some p => 0 < p
    | none => false)

/-- Embeds `_prepare_feature_matrix`: the matrix of fixed-order feature rows,
the target vector (prices are present on every row passed in), and the
fixed feature-name list. -/
def prepare_feature_matrix (features_list : List PropertyFeatures) :
    List (List ℚ) × List ℚ × List String :=
  (features_list.map featureVector,
   features_list.map (fun p => p.sale_price.getD 0),
   featureNamesList)

/-- Embeds `_get_feature_importance`: normalize the unnormalized importance
vector to sum to 1 (`importances / importances.sum()`; rational
division by zero is 0 where numpy would produce NaN — in both
semantics an all-zero vector fails to sum to 1) and key it by
feature name. -/
def get_feature_importance (est : Estimator) (names : List String) :
    List (String × ℚ) :=
  let imps := unnormImportances est
  let s := imps.sum
  names.zip (imps.map (fun x => x / s))

/-- The `self.models` lookup by `model_type` followed by `.fit`: the dict holds
exactly the keys `linear`, `ridge`, `random_forest`; any other key
raises `KeyError` (↦ `none`). -/
def fitEstimator (eng : SkEngine) (model_type : String)
    (xs : List (List ℚ)) (ys : List ℚ) : Option Estimator :=
  if model_type = "linear" then
    some (Estimator.linear (eng.fitLinear xs ys).1 (eng.fitLinear xs ys).2)
  else if model_type = "ridge" then
    some (Estimator.linear (eng.fitRidge xs ys).1 (eng.fitRidge xs ys).2)
  else if model_type = "random_forest" then
    some (Estimator.forest (eng.fitForest xs ys).1 (eng.fitForest xs ys).2)
  else none

/-- Python dict assignment `d[k] = v` on an association list. -/
def dictInsert (m : List (String × ℚ)) (k : String) (v : ℚ) :
    List (String × ℚ) :=
  if m.any (fun kv => kv.1 = k) then
    m.map (fun kv => if kv.1 = k then (k, v) else kv)
  else m ++ [(k, v)]

/-- The `predictions` dict built after training: for each priced record
predict with the freshly stored state, and record the price only when
the prediction is truthy (`if pred_price:` — `None` and `0.0` are both
skipped). -/
def trainPredictions (st : ModelState) (data_with_prices : List PropertyFeatures) :
    List (String × ℚ) :=
  data_with_prices.foldl
    (fun m p =>
      match predict_price st p with
      | some v => if v ≠ 0 then dictInsert m p.property_id v else m
      | none => m)
    []

/-- Embeds `build_room_dimension_model`: fewer than 5 records → `None`; fewer
than 3 priced records → `None`; otherwise prepare the fixed-order
matrix, split 80/20 with seed 42, fit the scaler on the training split
and scale both splits, fit the requested algorithm (unknown type:
`KeyError`), compute held-out metrics and cross-validation scores
(`cv = min(5, len(X_train))`), extract importances and coefficients,
store the trained state on the service, and collect truthy
predictions for the priced records.  Returns the outcome plus the
updated service state (the scaler is already fitted when the
`KeyError` escapes). -/
def build_room_dimension_model (eng : SkEngine) (st : ModelState)
    (features_list : List PropertyFeatures) (model_type : String) :
    TrainResult × ModelState :=
  if features_list.length < 5 then (.null, st)
  else
    let data_with_prices := pricedRecords features_list
    if data_with_prices.length < 3 then (.null, st)
    else
      let prep := prepare_feature_matrix data_with_prices
      let X := prep.1
      let y := prep.2.1
      let feature_names := prep.2.2
      let idxs := eng.splitIndices X.length
      let Xtrain := idxs.1.filterMap (fun i => X.get? i)
      let Xtest := idxs.2.filterMap (fun i => X.get? i)
      let ytrain := idxs.1.filterMap (fun i => y.get? i)
      let ytest := idxs.2.filterMap (fun i => y.get? i)
      let scaler := eng.scalerFit Xtrain
      let XtrainScaled := Xtrain.map (scaleRow scaler.1 scaler.2)
      let XtestScaled := Xtest.map (scaleRow scaler.1 scaler.2)
      match fitEstimator eng model_type XtrainScaled ytrain with
      | none =>
          (.keyError model_type,
           { st with scalerMean := some scaler.1, scalerScale := some scaler.2 })
      | some model =>
          let ypred := XtestScaled.map (estApply model)
          let stTrained : ModelState :=
            { trainedModel := some model
              trainedModelType := some model_type
              featureNames := feature_names
              scalerMean := some scaler.1
              scalerScale := some scaler.2 }
          (.ok
            { model_type := model_type
              r2_score := eng.r2Score ytest ypred
              mae := eng.maeScore ytest ypred
              rmse := eng.rmseScore ytest ypred
              cross_val_scores := eng.crossValScores model_type XtrainScaled ytrain (min 5 Xtrain.length)
              feature_importance := get_feature_importance model feature_names
              predictions := trainPredictions stTrained data_with_prices
              coefficients :=
                match model with
                | .linear coefs _ => feature_names.zip coefs
                | .forest _ _ => []
              intercept :=
                match model with
                | .linear _ b => b
                | .forest _ _ => 0 },
           stTrained)

/-! ## Comparator (`compare_properties`) -/

/-- Comparison report (`ComparisonResult` dataclass). -/
structure ComparisonResult where
  property_a_id : String
  property_b_id : String
  bedroom_diff : ℤ
  bathroom_diff : ℚ
  sqft_diff : ℚ
  predicted_price_diff : ℚ
  price_per_sqft_diff : ℚ
  sqft_impact : ℚ
  bedroom_impact : ℚ
  bathroom_impact : ℚ
  amenity_impact : ℚ
  comparison_summary : String
  recommendation : String

/-- Digit grouping of a reversed digit list (thousands separators of
the Python `:,` format). -/
def groupRev : List Char → List Char
  | a :: b :: c :: d :: rest => a :: b :: c :: Char.ofNat 44 :: groupRev (d :: rest)
  | l => l

/-- Thousands-separated comma format of a (nonnegative rendering of
an) integer. -/
def intComma (n : ℤ) : String :=
  String.mk (groupRev (Nat.repr n.natAbs).data.reverse).reverse

/-- Comma-grouped money format of a nonnegative amount: round to an
integer and group
digits (ties rounded half-up where Python banker-rounds; no call site
depends on the rendered text). -/
def moneyFmt (q : ℚ) : String := intComma (round q)

/-- Comma-grouped quantity format of a value that is an integer at
every call site
(square-footage differences); non-integral values render their floor. -/
def qtyFmt (q : ℚ) : String := intComma (Rat.floor q)

/-- Embeds `_generate_comparison_summary`: list the directional differences
and the resulting estimated value delta. -/
def generate_comparison_summary (bedroom_diff : ℤ) (bathroom_diff : ℚ)
    (sqft_diff : ℚ) (price_diff : ℚ) : String :=
  let bedroomParts : List String :=
    if bedroom_diff ≠ 0 then
      [(if bedroom_diff > 0 then "more" else "fewer") ++ " bedroom" ++
        (if |bedroom_diff| > 1 then "s" else "")]
    else []
  let bathroomParts : List String :=
    if bathroom_diff ≠ 0 then
      [(if bathroom_diff > 0 then "more" else "fewer") ++ " bathroom" ++
        (if |bathroom_diff| > 1 then "s" else "")]
    else []
  let sqftParts : List String :=
    if sqft_diff ≠ 0 then
      [qtyFmt |sqft_diff| ++ " " ++ (if sqft_diff > 0 then "more" else "fewer") ++ " sqft"]
    else []
  let summary_parts := bedroomParts ++ bathroomParts ++ sqftParts
  if summary_parts.isEmpty then "Properties are similar in size and features"
  else
    let comparison := "Property A has " ++ String.intercalate ", " summary_parts
    let price_impact := "resulting in a $" ++ moneyFmt |price_diff| ++ " " ++
      (if price_diff > 0 then "higher" else "lower") ++ " estimated value"
    comparison ++ ", " ++ price_impact ++ "."

/-- Embeds `_generate_recommendation`: bucket by price difference and
price-per-square-foot difference. -/
def generate_recommendation (price_diff price_per_sqft_diff : ℚ) : String :=
  if |price_diff| < 10000 then
    "Properties are similarly valued. Consider other factors like location and condition."
  else if price_per_sqft_diff > 20 then
    "Property A offers better value per square foot. Recommended if budget allows."
  else if price_per_sqft_diff < -20 then
    "Property B offers better value per square foot. More cost-effective option."
  else
    "Both properties offer similar value per square foot. Decision should be based on specific needs."

/-- Embeds `compare_properties`: always returns a report.  A failed prediction
contributes `0.0` (`predict_price(...) or 0.0` — `None` and `0.0` are
both falsy, so the contribution is `Option.getD 0`), price per square
foot guards against a non-positive `total_sqft`, and the four impact
attributions use the de-scaled sqft coefficient (`or 0` when
unavailable) and the fixed heuristic dollar weights. -/
def compare_properties (st : ModelState) (a b : PropertyFeatures) :
    ComparisonResult :=
  let bedroom_diff := a.bedrooms - b.bedrooms
  let bathroom_diff := a.bathrooms - b.bathrooms
  let sqft_diff := a.total_sqft - b.total_sqft
  let price_a := (predict_price st a).getD 0
  let price_b := (predict_price st b).getD 0
  let price_diff := price_a - price_b
  let price_per_sqft_a := if a.total_sqft > 0 then price_a / a.total_sqft else 0
  let price_per_sqft_b := if b.total_sqft > 0 then price_b / b.total_sqft else 0
  let price_per_sqft_diff := price_per_sqft_a - price_per_sqft_b
  let sqft_impact := sqft_diff * ((calculate_sqft_impact st).getD 0)
  let bedroom_impact := (bedroom_diff : ℚ) * 15000
  let bathroom_impact := bathroom_diff * 10000
  let amenity_diff :=
    ((a.has_garage - b.has_garage : ℤ) : ℚ) * 20000 +
    ((a.has_fireplace - b.has_fireplace : ℤ) : ℚ) * 5000 +
    ((a.has_balcony - b.has_balcony : ℤ) : ℚ) * 3000
  { property_a_id := a.property_id
    property_b_id := b.property_id
    bedroom_diff := bedroom_diff
    bathroom_diff := bathroom_diff
    sqft_diff := sqft_diff
    predicted_price_diff := price_diff
    price_per_sqft_diff := price_per_sqft_diff
    sqft_impact := sqft_impact
    bedroom_impact := bedroom_impact
    bathroom_impact := bathroom_impact
    amenity_impact := amenity_diff
    comparison_summary :=
      generate_comparison_summary bedroom_diff bathroom_diff sqft_diff price_diff
    recommendation := generate_recommendation price_diff price_per_sqft_diff }

/-! ## Concrete fixtures used to instantiate the theorems -/

/-- Twelve zeros (one per feature column). -/
def zeros12 : List ℚ := [0, 0, 0, 0, 0, 0, 0, 0, 0, 0, 0, 0]

/-- Twelve ones (one per feature column). -/
def ones12 : List ℚ := [1, 1, 1, 1, 1, 1, 1, 1, 1, 1, 1, 1]

/-- A concrete stand-in for the sklearn kernels: a fixed 2/1 index
split, identity scaling, unit coefficients and constant forest
predictions. -/
def constEngine : SkEngine :=
  { splitIndices := fun _ => ([0, 1], [2])
    scalerFit := fun _ => (zeros12, ones12)
    fitLinear := fun _ _ => (ones12, 1000)
    fitRidge := fun _ _ => (ones12, 1000)
    fitForest := fun _ _ => (ones12.map (fun x => x / 12), fun _ => 1000)
    r2Score := fun _ _ => 0
    maeScore := fun _ _ => 0
    rmseScore := fun _ _ => 0
    crossValScores := fun _ _ _ _ => [] }

/-- A degenerate but reachable fit: every coefficient is zero and the
intercept is the mean price — what the least-squares and ridge solvers
return when the training prices are all equal (the centered target is
the zero vector, whose minimum-norm solution is the zero coefficient
vector; the intercept is the target mean). -/
def zeroEngine : SkEngine :=
  { constEngine with
    fitLinear := fun _ _ => (zeros12, 350000)
    fitRidge := fun _ _ => (zeros12, 350000) }

/-- A stand-in for a fit whose raw prediction on a priced training
record is negative (least squares routinely undershoots below zero on
steep price gradients); only the sign of the raw prediction matters
here, the coefficient detail does not. -/
def negEngine : SkEngine :=
  { constEngine with
    fitLinear := fun _ _ => (zeros12, -50000)
    fitRidge := fun _ _ => (zeros12, -50000) }

/-- A feature record with the given id, square footage and optional
price (remaining fields at their dataclass defaults). -/
def mkRecord (pid : String) (sqft : ℚ) (price : Option ℚ) : PropertyFeatures :=
  { property_id := pid, bedrooms := 3, bathrooms := 2, total_sqft := sqft
    sale_price := price }

/-- Five records, three of them priced. -/
def sampleRecords : List PropertyFeatures :=
  [mkRecord "p1" 1000 (some 300000), mkRecord "p2" 1200 (some 340000),
   mkRecord "p3" 1400 (some 380000), mkRecord "p4" 1600 none,
   mkRecord "p5" 1800 none]

/-- Five records, three of them priced with the same price — the
constant-target input on which least squares returns the all-zero
coefficient vector. -/
def equalPricedRecords : List PropertyFeatures :=
  [mkRecord "e1" 1000 (some 350000), mkRecord "e2" 1200 (some 350000),
   mkRecord "e3" 1400 (some 350000), mkRecord "e4" 1600 none,
   mkRecord "e5" 1800 none]

/-- Five records, only two of them priced. -/
def twoPricedRecords : List PropertyFeatures :=
  [mkRecord "q1" 1000 (some 300000), mkRecord "q2" 1200 (some 340000),
   mkRecord "q3" 1400 none, mkRecord "q4" 1600 none,
   mkRecord "q5" 1800 none]

/-- An unpriced record used for prediction fixtures. -/
def wRec : PropertyFeatures := mkRecord "w" 1000 none

/-- The coefficient vector of the sample linear state. -/
def sampleCoefs : List ℚ := [50, 0, 0, 0, 0, 0, 0, 0, 0, 0, 0, 0]

/-- The fitted scale vector of the sample linear state (sqft column
standard deviation 2). -/
def sampleScale : List ℚ := [2, 1, 1, 1, 1, 1, 1, 1, 1, 1, 1, 1]

/-- A trained linear-family state: sqft coefficient 50, sqft column
standard deviation 2, intercept 100000. -/
def sampleLinearState : ModelState :=
  { trainedModel := some (.linear sampleCoefs 100000)
    trainedModelType := some "ridge"
    featureNames := featureNamesList
    scalerMean := some zeros12
    scalerScale := some sampleScale }

/-- A trained random-forest state. -/
def sampleForestState : ModelState :=
  { trainedModel := some (.forest (ones12.map (fun x => x / 12)) (fun _ => 123456))
    trainedModelType := some "random_forest"
    featureNames := featureNamesList
    scalerMean := some zeros12
    scalerScale := some ones12 }

/-- A row whose every square-footage field is absent (resolves to 0). -/
def zeroSqftRow : PropertyRow := { property_id := some "w1" }

/-- A row with a positive row-level measurement. -/
def posSqftRow : PropertyRow :=
  { property_id := some "w2", total_square_feet := some (.num 900) }

/-- A row whose single room has the feature string `Fireplace`
(capitalized) and a type that does not mention it. -/
def fireplaceRow : PropertyRow :=
  { property_id := some "cx"
    extracted_data := some { rooms := [{ roomType := some "den", features := ["Fireplace"] }] }
    total_square_feet := some (.num 900) }

/-- A row with a garage-typed room and two closets. -/
def garageRow : PropertyRow :=
  { property_id := some "w4"
    extracted_data := some { rooms := [{ roomType := some "Garage", features := [] }] }
    total_square_feet := some (.num 800)
    detected_features := some { closets := 2 } }

/-- Modelled from the spec (section 4.1c), for refutation of C4: amenity
flags are derived by case-insensitive substring search for tokens
across both the type field and the feature-list field of each room. -/
def specAmenityFlag (row : PropertyRow) (token : String) : Bool :=
  ((row.extracted_data.getD emptyExtractedData).rooms).any
    (fun r => pyIn token (pyLower (r.roomType.getD "")) ||
              r.features.any (fun s => pyIn token (pyLower s)))

/-- The importance-value sum of a successful report. -/
def importanceSumOf : TrainResult → Option ℚ
  | .ok r => some ((r.feature_importance.map Prod.snd).sum)
  | _ => none

/-- The predictions dict of a successful report. -/
def predictionsOf : TrainResult → Option (List (String × ℚ))
  | .ok r => some r.predictions
  | _ => none

/-! ## Helper lemmas -/

/-- Inversion of a successful normalization: the resolved square
footage is a positive number, the id is present, and the record is the
one assembled by `buildFeatures`. -/
theorem parse_some_elim {row : PropertyRow} {rec : PropertyFeatures}
    (h : parse_property_row row = some rec) :
    ∃ q pid, resolveTotalSqft row = .num q ∧ ¬ q ≤ 0 ∧
      row.property_id = some pid ∧ rec = buildFeatures row q pid := by
  unfold parse_property_row at h
  rcases hres : resolveTotalSqft row with q | s
  · rw [hres] at h
    by_cases hq : q ≤ 0
    · simp [hq] at h
    · rcases hpid : row.property_id with _ | pid
      · rw [hpid] at h; simp [hq] at h
      · rw [hpid] at h
        simp only [if_neg hq, Option.some.injEq] at h
        exact ⟨q, pid, rfl, hq, rfl, h.symm⟩
  · rw [hres] at h; cases h

theorem sum_map_div (l : List ℚ) (s : ℚ) :
    (l.map (fun x => x / s)).sum = l.sum / s := by
  induction l with
  | nil => simp
  | cons a t ih => simp [ih, add_div]

/-- A key-preserving entry map leaves the presence of every lookup
unchanged. -/
theorem lookup_map_keys_isSome (f : String × ℚ → String × ℚ)
    (hf : ∀ kv, (f kv).1 = kv.1) (m : List (String × ℚ)) (k2 : String) :
    (List.lookup k2 (m.map f)).isSome = (List.lookup k2 m).isSome := by
  induction m with
  | nil => rfl
  | cons hd t ih =>
    simp only [List.map_cons, List.lookup, hf hd]
    cases hbe : (k2 == hd.1) <;> simp [hbe, ih]

/-- Replacing the matching entry of an association list leaves the
presence of every lookup unchanged (the replaced pair keeps its key). -/
theorem lookup_replace_isSome (m : List (String × ℚ)) (k k2 : String) (v : ℚ) :
    (List.lookup k2 (m.map (fun kv => if kv.1 = k then (k, v) else kv))).isSome =
      (List.lookup k2 m).isSome := by
  refine lookup_map_keys_isSome _ (fun kv => ?_) m k2
  by_cases h : kv.1 = k <;> simp [h]

theorem lookup_append_single_isSome (m : List (String × ℚ)) (k k2 : String) (v : ℚ) :
    (List.lookup k2 (m ++ [(k, v)])).isSome =
      ((List.lookup k2 m).isSome || (k2 == k)) := by
  induction m with
  | nil => cases hbe : (k2 == k) <;> simp [List.lookup, hbe]
  | cons hd t ih =>
    simp only [List.cons_append, List.lookup]
    cases hbe : (k2 == hd.1) <;> simp [hbe, ih]

theorem lookup_of_any (m : List (String × ℚ)) (k : String)
    (h : m.any (fun kv => kv.1 = k) = true) :
    (List.lookup k m).isSome = true := by
  induction m with
  | nil => cases h
  | cons hd t ih =>
    simp only [List.any_cons, Bool.or_eq_true, decide_eq_true_eq] at h
    rcases h with h | h
    · simp [List.lookup, h]
    · simp only [List.lookup]
      cases hbe : (k == hd.1) <;> simp [ih h]

theorem lookup_dictInsert_self (m : List (String × ℚ)) (k : String) (v : ℚ) :
    (List.lookup k (dictInsert m k v)).isSome = true := by
  unfold dictInsert
  by_cases hany : m.any (fun kv => kv.1 = k) = true
  · rw [if_pos hany, lookup_replace_isSome]
    exact lookup_of_any m k hany
  · rw [if_neg hany, lookup_append_single_isSome]
    simp

theorem lookup_dictInsert_mono (m : List (String × ℚ)) (k k2 : String) (v : ℚ)
    (h : (List.lookup k2 m).isSome = true) :
    (List.lookup k2 (dictInsert m k v)).isSome = true := by
  unfold dictInsert
  by_cases hany : m.any (fun kv => kv.1 = k) = true
  · rw [if_pos hany, lookup_replace_isSome]; exact h
  · rw [if_neg hany, lookup_append_single_isSome, h, Bool.true_or]

/-- One step of the training-predictions fold. -/
def predStep (st : ModelState) (m : List (String × ℚ)) (p : PropertyFeatures) :
    List (String × ℚ) :=
  match predict_price st p with
  | some v => if v ≠ 0 then dictInsert m p.property_id v else m
  | none => m

theorem trainPredictions_eq_foldl (st : ModelState) (l : List PropertyFeatures) :
    trainPredictions st l = l.foldl (predStep st) [] := rfl

theorem predStep_mono (st : ModelState) (m : List (String × ℚ))
    (p : PropertyFeatures) (k : String)
    (h : (List.lookup k m).isSome = true) :
    (List.lookup k (predStep st m p)).isSome = true := by
  unfold predStep
  cases hp : predict_price st p with
  | none => simp only [hp]; exact h
  | some v =>
    simp only [hp]
    by_cases hv : v ≠ 0
    · rw [if_pos hv]; exact lookup_dictInsert_mono _ _ _ _ h
    · rw [if_neg hv]; exact h

theorem foldl_predStep_mono (st : ModelState) (l : List PropertyFeatures)
    (k : String) :
    ∀ acc, (List.lookup k acc).isSome = true →
      (List.lookup k (l.foldl (predStep st) acc)).isSome = true := by
  induction l with
  | nil => exact fun acc h => h
  | cons hd t ih =>
    intro acc h
    exact ih (predStep st acc hd) (predStep_mono st acc hd k h)

/-! ## Claims -/

/-- C2: normalization returns `null` whenever the resolved `total_sqft`
(after the alternate-key fallbacks and numeric-string coercion) is
absent, zero, or negative; and a dropped record never surfaces as a
`FeatureRecord` with `total_sqft` defaulted to 0 — every produced
record has a strictly positive `total_sqft`. -/
theorem parse_rejects_nonpositive_total_sqft (row : PropertyRow) :
    (totalSqftNonpositive row = true → parse_property_row row = none) ∧
    (∀ rec : PropertyFeatures, parse_property_row row = some rec →
      0 < rec.total_sqft) := by
  constructor
  · intro h
    unfold totalSqftNonpositive at h
    unfold parse_property_row
    rcases hres : resolveTotalSqft row with q | s
    · rw [hres] at h
      have hq : q ≤ 0 := by simpa using h
      simp [hq]
    · rfl
  · intro rec h
    obtain ⟨q, pid, _, hq, _, hrec⟩ := parse_some_elim h
    subst hrec
    have : (buildFeatures row q pid).total_sqft = q := rfl
    rw [this]
    exact lt_of_not_le hq

/-- C2 witness: a row with every square-footage field absent is
rejected, and a row accepted with measurement 900 yields a record with
positive `total_sqft`. -/
theorem parse_rejects_nonpositive_total_sqft_witness :
    parse_property_row zeroSqftRow = none ∧
    0 < (buildFeatures posSqftRow 900 "w2").total_sqft :=
  ⟨(parse_rejects_nonpositive_total_sqft zeroSqftRow).1 (by decide),
   (parse_rejects_nonpositive_total_sqft posSqftRow).2
     (buildFeatures posSqftRow 900 "w2") (by decide)⟩

/-- C4 counterexample: the claim says every amenity flag is a
case-insensitive search over both the room-type field and the
feature-list field.  On a room typed `den` with feature list
containing the capitalized word Fireplace, the spec-mandated flag is
set, but the source tests the lower-case token against the `str()`
rendering of the features list — case-sensitive and over the features
rendering only — so the produced record has
`has_fireplace = 0`. -/
theorem amenity_flag_claim_counterexample :
    (parse_property_row fireplaceRow).map PropertyFeatures.has_fireplace = some 0 ∧
    specAmenityFlag fireplaceRow "fireplace" = true := by
  constructor
  · decide
  · decide

/-- C4 amended: `has_garage` is a case-insensitive substring search for
"garage" in the type field of each room only; `has_fireplace` and
`has_balcony` are case-sensitive substring searches for their token in
the `str()` rendering of the feature list of each room only; `has_closets`
is 1 exactly when the detected-features closet total is positive. -/
theorem amenity_flags_source_behavior (row : PropertyRow)
    (rec : PropertyFeatures) (h : parse_property_row row = some rec) :
    rec.has_garage = (if garageFlag row then 1 else 0) ∧
    rec.has_fireplace = (if fireplaceFlag row then 1 else 0) ∧
    rec.has_balcony = (if balconyFlag row then 1 else 0) ∧
    rec.has_closets =
      (if (row.detected_features.getD emptyTotals).closets > 0 then 1 else 0) := by
  obtain ⟨q, pid, _, _, _, hrec⟩ := parse_some_elim h
  subst hrec
  exact ⟨rfl, rfl, rfl, rfl⟩

/-- C4 witness: the amended flag characterization evaluated on a row
with a `Garage`-typed room and two closets. -/
theorem amenity_flags_source_behavior_witness :
    (buildFeatures garageRow 800 "w4").has_garage =
      (if garageFlag garageRow then 1 else 0) ∧
    (buildFeatures garageRow 800 "w4").has_fireplace =
      (if fireplaceFlag garageRow then 1 else 0) ∧
    (buildFeatures garageRow 800 "w4").has_balcony =
      (if balconyFlag garageRow then 1 else 0) ∧
    (buildFeatures garageRow 800 "w4").has_closets =
      (if (garageRow.detected_features.getD emptyTotals).closets > 0 then 1 else 0) :=
  amenity_flags_source_behavior garageRow (buildFeatures garageRow 800 "w4")
    (by decide)

/-- C1: for every training call with a model type in the trainer
contract domain (`linear` / `ridge` / `random_forest`, cf. spec §4.2):
fewer than 5 records returns `null`; at least 5 records but fewer than
3 with a known, positive `sale_price` returns `null`; at least 5
records with at least 3 priced ones returns a non-null report —
whatever values the sklearn kernels compute. -/
theorem train_insufficient_data_policy (eng : SkEngine) (st : ModelState)
    (fl : List PropertyFeatures) (mt : String)
    (hmt : mt = "linear" ∨ mt = "ridge" ∨ mt = "random_forest") :
    (fl.length < 5 → (build_room_dimension_model eng st fl mt).1 = .null) ∧
    (5 ≤ fl.length → (pricedRecords fl).length < 3 →
      (build_room_dimension_model eng st fl mt).1 = .null) ∧
    (5 ≤ fl.length → 3 ≤ (pricedRecords fl).length →
      ((build_room_dimension_model eng st fl mt).1).isOk = true) := by
  refine ⟨fun h5 => ?_, fun h5 h3 => ?_, fun h5 h3 => ?_⟩
  · simp [build_room_dimension_model, h5]
  · have h5n : ¬ fl.length < 5 := by omega
    simp [build_room_dimension_model, h5n, h3]
  · have h5n : ¬ fl.length < 5 := by omega
    have h3n : ¬ (pricedRecords fl).length < 3 := by omega
    rcases hmt with rfl | rfl | rfl <;>
      simp [build_room_dimension_model, h5n, h3n, fitEstimator, TrainResult.isOk]

/-- C1 witness: 4 records → `null`; 5 records with only 2 priced →
`null`; 5 records with 3 priced → a non-null report. -/
theorem train_insufficient_data_policy_witness :
    (build_room_dimension_model constEngine initState (sampleRecords.take 4) "ridge").1 = .null ∧
    (build_room_dimension_model constEngine initState twoPricedRecords "ridge").1 = .null ∧
    ((build_room_dimension_model constEngine initState sampleRecords "ridge").1).isOk = true :=
  ⟨(train_insufficient_data_policy constEngine initState (sampleRecords.take 4) "ridge"
      (Or.inr (Or.inl rfl))).1 (by decide),
   (train_insufficient_data_policy constEngine initState twoPricedRecords "ridge"
      (Or.inr (Or.inl rfl))).2.1 (by decide) (by decide),
   (train_insufficient_data_policy constEngine initState sampleRecords "ridge"
      (Or.inr (Or.inl rfl))).2.2 (by decide) (by decide)⟩

/-- C10: a training call whose `model_type` is outside
{`linear`, `ridge`, `random_forest`} and whose input passes both
insufficient-data checks raises `KeyError` at the
`self.models[model_type]` lookup rather than returning `null` or a
report. -/
theorem invalid_model_type_raises (eng : SkEngine) (st : ModelState)
    (fl : List PropertyFeatures) (mt : String)
    (hmt : ¬ (mt = "linear" ∨ mt = "ridge" ∨ mt = "random_forest"))
    (h5 : 5 ≤ fl.length) (h3 : 3 ≤ (pricedRecords fl).length) :
    (build_room_dimension_model eng st fl mt).1 = .keyError mt := by
  have h5n : ¬ fl.length < 5 := by omega
  have h3n : ¬ (pricedRecords fl).length < 3 := by omega
  push_neg at hmt
  obtain ⟨hm1, hm2, hm3⟩ := hmt
  simp [build_room_dimension_model, h5n, h3n, fitEstimator, hm1, hm2, hm3]

/-- C10 witness: the invalid model type `cubic` with sufficient data
yields the `KeyError` outcome. -/
theorem invalid_model_type_raises_witness :
    (build_room_dimension_model constEngine initState sampleRecords "cubic").1 =
      .keyError "cubic" :=
  invalid_model_type_raises constEngine initState sampleRecords "cubic"
    (by decide) (by decide) (by decide)

/-- C3: `calculate_sqft_impact` returns `null` in the untrained state
and `null` for a trained random forest; for a trained linear/ridge
model (trained state carries the fixed feature order, whose
square-footage column is index 0) it returns the square-footage
coefficient divided by the fitted standard deviation of that column from
the scaler. -/
theorem sqft_impact_model_dependence (st : ModelState) :
    (st.trainedModel = none → calculate_sqft_impact st = none) ∧
    (∀ imps pf, st.trainedModel = some (.forest imps pf) →
      calculate_sqft_impact st = none) ∧
    (∀ coefs b sc c s, st.trainedModel = some (.linear coefs b) →
      st.featureNames = featureNamesList → st.scalerScale = some sc →
      coefs[0]? = some c → sc[0]? = some s →
      calculate_sqft_impact st = some (c / s)) := by
  refine ⟨fun h => ?_, fun imps pf h => ?_, fun coefs b sc c s hm hn hsc hc hs => ?_⟩
  · simp [calculate_sqft_impact, h]
  · simp only [calculate_sqft_impact, h]
    split <;> rfl
  · have hmem : "total_sqft" ∈ featureNamesList := by decide
    have hidx : featureNamesList.indexOf "total_sqft" = 0 := by decide
    simp [calculate_sqft_impact, hm, hn, hsc, hmem, hidx, hc, hs]

/-- C3 witness: the three cases evaluated on the untrained state, a
trained forest state, and a trained linear state with sqft coefficient
50 and sqft standard deviation 2. -/
theorem sqft_impact_model_dependence_witness :
    calculate_sqft_impact initState = none ∧
    calculate_sqft_impact sampleForestState = none ∧
    calculate_sqft_impact sampleLinearState = some (50 / 2) :=
  ⟨(sqft_impact_model_dependence initState).1 rfl,
   (sqft_impact_model_dependence sampleForestState).2.1
     (ones12.map (fun x => x / 12)) (fun _ => 123456) rfl,
   (sqft_impact_model_dependence sampleLinearState).2.2
     sampleCoefs 100000 sampleScale 50 2 rfl rfl rfl rfl rfl⟩

/-- C5: `predict_price` is `null` for every record in the untrained
state; with a trained model it is exactly the clamped application of
the trained estimator to the scaler-transformed fixed-order feature
vector; and every non-null prediction is non-negative. -/
theorem predict_price_contract (st : ModelState) (f : PropertyFeatures) :
    (st.trainedModel = none → predict_price st f = none) ∧
    (∀ est mean scale, st.trainedModel = some est →
      st.scalerMean = some mean → st.scalerScale = some scale →
      predict_price st f =
        some (pyMax 0 (estApply est (scaleRow mean scale (featureVector f))))) ∧
    (∀ p, predict_price st f = some p → 0 ≤ p) := by
  have hmax : ∀ x : ℚ, 0 ≤ pyMax 0 x := by
    intro x
    unfold pyMax
    by_cases h : (0 : ℚ) < x
    · rw [if_pos h]; exact le_of_lt h
    · rw [if_neg h]
  refine ⟨fun h => ?_, fun est mean scale hm hmean hscale => ?_, fun p hp => ?_⟩
  · simp [predict_price, h]
  · simp [predict_price, hm, hmean, hscale]
  · unfold predict_price at hp
    rcases hm : st.trainedModel with _ | est
    · rw [hm] at hp; cases hp
    · rw [hm] at hp
      rcases hmean : st.scalerMean with _ | mean <;> rw [hmean] at hp
      · cases hp
      · rcases hscale : st.scalerScale with _ | scale <;> rw [hscale] at hp
        · cases hp
        · simp only [Option.some.injEq] at hp
          rw [← hp]
          exact hmax _

/-- C5 witness: `null` on the untrained state; on the sample linear
state the prediction of a 1000-sqft record is the clamped application
of the stored estimator to the scaled vector, and that prediction is
non-negative by the theorem. -/
theorem predict_price_contract_witness :
    predict_price initState wRec = none ∧
    predict_price sampleLinearState wRec =
      some (pyMax 0 (estApply (.linear sampleCoefs 100000)
        (scaleRow zeros12 sampleScale (featureVector wRec)))) ∧
    0 ≤ pyMax 0 (estApply (.linear sampleCoefs 100000)
        (scaleRow zeros12 sampleScale (featureVector wRec))) :=
  ⟨(predict_price_contract initState wRec).1 rfl,
   (predict_price_contract sampleLinearState wRec).2.1
     (.linear sampleCoefs 100000) zeros12 sampleScale rfl rfl rfl,
   (predict_price_contract sampleLinearState wRec).2.2 _
     ((predict_price_contract sampleLinearState wRec).2.1
       (.linear sampleCoefs 100000) zeros12 sampleScale rfl rfl rfl)⟩

/-- C6: `compare_properties` is a total function (it always returns a
report); a failed (`null`) prediction enters the price difference as
`0.0` via `Option.getD 0` (Python `or 0.0`), and a property with
non-positive `total_sqft` contributes 0 to the price-per-square-foot
difference instead of dividing by zero. -/
theorem compare_properties_degrades_gracefully (st : ModelState)
    (a b : PropertyFeatures) :
    (compare_properties st a b).predicted_price_diff =
      (predict_price st a).getD 0 - (predict_price st b).getD 0 ∧
    (compare_properties st a b).price_per_sqft_diff =
      (if a.total_sqft > 0 then (predict_price st a).getD 0 / a.total_sqft else 0) -
      (if b.total_sqft > 0 then (predict_price st b).getD 0 / b.total_sqft else 0) :=
  ⟨rfl, rfl⟩

/-- C7: under a trained model the four attributed impacts are exactly
the heuristic formulas: sqft difference times the available sqft
coefficient (0 when unavailable), $15k per bedroom, $10k per bathroom,
and $20k/$5k/$3k for garage/fireplace/balcony differences. -/
theorem compare_impact_attributions (st : ModelState)
    (a b : PropertyFeatures) (_htr : st.trainedModel.isSome = true) :
    (compare_properties st a b).sqft_impact =
      (a.total_sqft - b.total_sqft) * ((calculate_sqft_impact st).getD 0) ∧
    (compare_properties st a b).bedroom_impact =
      ((a.bedrooms - b.bedrooms : ℤ) : ℚ) * 15000 ∧
    (compare_properties st a b).bathroom_impact =
      (a.bathrooms - b.bathrooms) * 10000 ∧
    (compare_properties st a b).amenity_impact =
      ((a.has_garage - b.has_garage : ℤ) : ℚ) * 20000 +
      ((a.has_fireplace - b.has_fireplace : ℤ) : ℚ) * 5000 +
      ((a.has_balcony - b.has_balcony : ℤ) : ℚ) * 3000 :=
  ⟨rfl, rfl, rfl, rfl⟩

/-- C7 witness: the attribution formulas evaluated under the sample
trained linear state on two concrete records. -/
theorem compare_impact_attributions_witness :
    (compare_properties sampleLinearState (mkRecord "a" 1800 none)
        (mkRecord "b" 1000 none)).sqft_impact =
      ((1800 : ℚ) - 1000) * ((calculate_sqft_impact sampleLinearState).getD 0) ∧
    (compare_properties sampleLinearState (mkRecord "a" 1800 none)
        (mkRecord "b" 1000 none)).bedroom_impact = ((3 - 3 : ℤ) : ℚ) * 15000 :=
  ⟨(compare_impact_attributions sampleLinearState (mkRecord "a" 1800 none)
      (mkRecord "b" 1000 none) rfl).1,
   (compare_impact_attributions sampleLinearState (mkRecord "a" 1800 none)
      (mkRecord "b" 1000 none) rfl).2.1⟩

/-- C8 counterexample: a successful training call on five records with
three equal prices — for which the least-squares/ridge solvers return
the all-zero coefficient vector (the centered target is zero) — yields
a report whose feature-importance values sum to 0, not to 1 ± 1e-6
(in float arithmetic the normalization computes 0/0 = NaN; in the
rational embedding division by zero is 0 — under both semantics the
sum is not within 1e-6 of 1). -/
theorem importance_sum_counterexample :
    importanceSumOf
        (build_room_dimension_model zeroEngine initState equalPricedRecords "linear").1 =
      some 0 ∧
    ¬ |(0 : ℚ) - 1| ≤ 1 / 1000000 := by
  constructor
  · have h5 : ¬ equalPricedRecords.length < 5 := by decide
    have h3 : ¬ (pricedRecords equalPricedRecords).length < 3 := by decide
    simp only [build_room_dimension_model, if_neg h5, if_neg h3]
    norm_num [fitEstimator, importanceSumOf, get_feature_importance,
      unnormImportances, npAbs, zeroEngine, constEngine,
      prepare_feature_matrix, featureNamesList, zeros12, List.zip]
  · norm_num

/-- C8 amended: for every fit whose unnormalized importance vector
(native importances for a forest, absolute coefficients for a
linear/ridge model) has nonzero sum, the normalized feature-importance
values over the fixed feature-name order sum to 1 within 1e-6 (exactly
1 in rational arithmetic). -/
theorem importance_sum_normalized (est : Estimator)
    (hlen : (unnormImportances est).length ≤ featureNamesList.length)
    (hsum : (unnormImportances est).sum ≠ 0) :
    |((get_feature_importance est featureNamesList).map Prod.snd).sum - 1| ≤
      1 / 1000000 := by
  unfold get_feature_importance
  have hmap : ((unnormImportances est).map
      (fun x => x / (unnormImportances est).sum)).length ≤ featureNamesList.length := by
    simpa using hlen
  rw [List.map_snd_zip _ _ hmap, sum_map_div, div_self hsum]
  norm_num

/-- C8 witness: a linear fit with twelve unit coefficients has
importance values summing to 1 within 1e-6. -/
theorem importance_sum_normalized_witness :
    |((get_feature_importance (.linear ones12 0)
        featureNamesList).map Prod.snd).sum - 1| ≤ 1 / 1000000 :=
  importance_sum_normalized (.linear ones12 0) (by decide)
    (by norm_num [unnormImportances, npAbs, ones12])

/-- C9 counterexample: a fit whose raw prediction on every training
record is negative trains successfully, each prediction clamps to
`max(0, negative) = 0.0`, and the `if pred_price:` truthiness guard
then skips every priced record — the predictions map is empty even
though three training records had known positive prices. -/
theorem predictions_map_counterexample :
    predictionsOf
        (build_room_dimension_model negEngine initState sampleRecords "linear").1 =
      some [] ∧
    (pricedRecords sampleRecords).map PropertyFeatures.property_id =
      ["p1", "p2", "p3"] := by
  constructor
  · have h5 : ¬ sampleRecords.length < 5 := by decide
    have h3 : ¬ (pricedRecords sampleRecords).length < 3 := by decide
    simp only [build_room_dimension_model, if_neg h5, if_neg h3]
    norm_num [fitEstimator, predictionsOf, trainPredictions, predict_price,
      estApply, scaleRow, pyMax, featureVector, sampleRecords, mkRecord,
      pricedRecords, prepare_feature_matrix, negEngine, constEngine,
      zeros12, ones12, List.zip]
  · decide

/-- C9 amended: the predictions map contains an entry for every priced
training record whose prediction under the freshly stored state is
non-null and nonzero (predictions that fail or evaluate to exactly 0
are skipped by the truthiness guard). -/
theorem predictions_cover_nonzero_priced (st : ModelState)
    (l : List PropertyFeatures) (p : PropertyFeatures) (v : ℚ)
    (hp : p ∈ l) (hv : predict_price st p = some v) (hnz : v ≠ 0) :
    (List.lookup p.property_id (trainPredictions st l)).isSome = true := by
  rw [trainPredictions_eq_foldl]
  have aux : ∀ (t : List PropertyFeatures) (acc : List (String × ℚ)), p ∈ t →
      (List.lookup p.property_id (t.foldl (predStep st) acc)).isSome = true := by
    intro t
    induction t with
    | nil => intro acc h; cases h
    | cons hd s ih =>
      intro acc hmem
      rcases List.mem_cons.mp hmem with heq | hmem2
      · subst heq
        show (List.lookup p.property_id
          (s.foldl (predStep st) (predStep st acc p))).isSome = true
        apply foldl_predStep_mono
        unfold predStep
        simp only [hv]
        rw [if_pos hnz]
        exact lookup_dictInsert_self acc p.property_id v
      · exact ih (predStep st acc hd) hmem2
  exact aux l [] hp

/-- C9 witness: under the sample trained state the 1000-sqft record
predicts to the nonzero 125000, so its id has an entry in the
predictions built over the singleton list containing it. -/
theorem predictions_cover_nonzero_priced_witness :
    (List.lookup "w" (trainPredictions sampleLinearState [wRec])).isSome = true := by
  have h1 : predict_price sampleLinearState wRec =
      some (pyMax 0 (estApply (.linear sampleCoefs 100000)
        (scaleRow zeros12 sampleScale (featureVector wRec)))) := rfl
  have hv : predict_price sampleLinearState wRec = some 125000 := by
    rw [h1]
    norm_num [estApply, scaleRow, featureVector, wRec, mkRecord,
      sampleCoefs, sampleScale, zeros12, pyMax, List.zip]
  exact predictions_cover_nonzero_priced sampleLinearState [wRec] wRec 125000
    (List.mem_singleton.mpr rfl) hv (by norm_num)

end PropertyRegression
